import Mathlib

/-
Verification of the cloudbridge AWS provider services layer
(src/cloudbridge/cloud/providers/aws/services.py) against its
natural-language specification.

The Python code is shallowly embedded as pure Lean functions.  Provider
behaviour (the remote EC2/VPC API responses) is abstracted into explicit
environment records; mutating provider calls are recorded in an event
trace; Python exceptions become an explicit `PyError` sum; Python
truthiness of strings / lists / `None` is modelled by explicit helper
predicates.
-/

namespace CloudBridge

/-- Decidable equality for `Except`, so that concrete runs of the
embedded code can be checked by `decide`. -/
instance {ε α : Type} [DecidableEq ε] [DecidableEq α] :
    DecidableEq (Except ε α) := fun a b =>
  match a, b with
  | Except.ok x, Except.ok y =>
    if h : x = y then Decidable.isTrue (by rw [h])
    else Decidable.isFalse (by intro hc; cases hc; exact h rfl)
  | Except.error x, Except.error y =>
    if h : x = y then Decidable.isTrue (by rw [h])
    else Decidable.isFalse (by intro hc; cases hc; exact h rfl)
  | Except.ok _, Except.error _ => Decidable.isFalse (by intro hc; cases hc)
  | Except.error _, Except.ok _ => Decidable.isFalse (by intro hc; cases hc)

/-- Python exceptions that the embedded code can raise.
`valueError` models `ValueError` (the spec's Conflict errors),
`attributeError` models `AttributeError` raised with a message,
`invalidConfiguration` models `InvalidConfigurationException` (the
spec's Configuration error for blank volumes), `unboundLocal` models
`UnboundLocalError` on reading a never-assigned local, `indexError`
models `IndexError` from indexing an empty list, `stopIteration` models
`StopIteration` from an exhausted iterator, and `noneAttr` models the
`AttributeError` from accessing an attribute of `None`. -/
inductive PyError where
  | valueError (msg : String)
  | attributeError (msg : String)
  | invalidConfiguration (msg : String)
  | unboundLocal (var : String)
  | indexError
  | stopIteration
  | noneAttr
  deriving DecidableEq

/-- Spec taxonomy: a Conflict error is a `ValueError` (zone mismatch,
ambiguous security-group placement). -/
def PyError.isConflict : PyError → Bool
  | PyError.valueError _ => true
  | _ => false

/-- Spec taxonomy: a Configuration error is an `AttributeError` with a
message (no default VPC, security groups without a VPC) or an
`InvalidConfigurationException` (blank volume with no zone). -/
def PyError.isConfiguration : PyError → Bool
  | PyError.attributeError _ => true
  | PyError.invalidConfiguration _ => true
  | _ => false

/-- Python truthiness of an optional string: `None` and `""` are falsy. -/
def strTruthy : Option String → Bool
  | none => false
  | some s => !(s == "")

/-- Python truthiness of an optional number: `None` and `0` are falsy. -/
def natOptTruthy : Option Nat → Bool
  | none => false
  | some n => !(n == 0)

/-! ## EC2ServiceFilter: the generic resource adapter

`EC2ServiceFilter.get/delete/wait_for_create/wait_for_delete`
(services.py lines 72-178).  The provider responses are abstracted by a
`FilterEnv`: `filterResult` is the outcome of
`service.filter(...).limit(1)` (`Except.error` models an
`EC2ResponseError` raised by the provider), and `deleteRaises` says
whether the provider raises `EC2ResponseError` on `res.delete()`.
Resources are identified by their id strings. -/

structure FilterEnv where
  filterResult : Except Unit (List String)
  deleteRaises : Bool

/-- `EC2ServiceFilter.get` (lines 72-92): returns the first object of the
filtered listing, `none` if the listing is empty, and absorbs a
provider-level `EC2ResponseError` into `none`. -/
def filterGet (env : FilterEnv) : Option String :=
  match env.filterResult with
  | Except.error _ => none
  | Except.ok objs => objs.head?

/-- `EC2ServiceFilter.delete` (lines 135-150).  First component: the
returned boolean.  Second component: whether the provider delete call
(`res.delete()`) was issued at all. -/
def filterDelete (env : FilterEnv) : Bool × Bool :=
  match filterGet env with
  | some _ => if env.deleteRaises then (false, true) else (true, true)
  | none => (true, false)

/-! ## The polling wait primitives

`wait_for_create` / `wait_for_delete` (lines 152-178).  The successive
results of `self.get` are abstracted by a sequence `g : Nat → Option
String` (the value at poll number `k`); `hr` models
`hasattr(obj, 'refresh') and callable(obj.refresh)` for the resource
kind.  The Python tri-state return value `True / False / None` becomes
`WaitOutcome`.  Each loop iteration begins with `time.sleep(2)`; the
second component of the result tallies the total seconds slept, so that
blocking-time claims can be stated. -/

inductive WaitOutcome where
  | confirmed
  | timedOut
  | unsupported
  deriving DecidableEq

/-- Python truthiness of the tri-state: `not True = False`,
`not False = True`, `not None = True`. -/
def pyNot : WaitOutcome → Bool
  | WaitOutcome.confirmed => false
  | WaitOutcome.timedOut => true
  | WaitOutcome.unsupported => true

/-- One unrolling of the `while timeout > 0` loop of `wait_for_create`
(lines 159-169), with `fuel` the current value of the `timeout` counter
(decremented by 1 per iteration) and `k` the poll number. -/
def waitCreateGo (g : Nat → Option String) (hr : Bool) :
    Nat → Nat → WaitOutcome × Nat
  | 0, _ => (WaitOutcome.timedOut, 0)
  | Nat.succ fuel, k =>
    match g k with
    | some _ =>
      (if hr then WaitOutcome.confirmed else WaitOutcome.unsupported, 2)
    | none =>
      let r := waitCreateGo g hr fuel (k + 1)
      (r.1, r.2 + 2)

/-- `EC2ServiceFilter.wait_for_create` (lines 152-169); the source's
default for the `timeout` parameter is 15. -/
def wait_for_create (g : Nat → Option String) (hr : Bool) (timeout : Nat) :
    WaitOutcome × Nat :=
  waitCreateGo g hr timeout 0

/-- One unrolling of the `while timeout > 0` loop of `wait_for_delete`
(lines 173-178). -/
def waitDeleteGo (g : Nat → Option String) : Nat → Nat → Bool × Nat
  | 0, _ => (false, 0)
  | Nat.succ fuel, k =>
    match g k with
    | none => (true, 2)
    | some _ =>
      let r := waitDeleteGo g fuel (k + 1)
      (r.1, r.2 + 2)

/-- `EC2ServiceFilter.wait_for_delete` (lines 171-178). -/
def wait_for_delete (g : Nat → Option String) (timeout : Nat) : Bool × Nat :=
  waitDeleteGo g timeout 0

/-- The source's default value of the `timeout` parameter. -/
def default_timeout : Nat := 15

/-! ## AWSVolumeService.create, a caller of wait_for_create

Lines 312-332.  Only the part relevant to the wait outcome is kept: the
`create_volume` provider call is abstracted as `createResult` (the id of
the volume the provider returned, `none` when the provider returned no
object), after which the code runs
`if not self.iface.wait_for_create(res.id, 'volume-id'): return None`.
The name/description assignments on the returned wrapper are elided. -/

structure VolCreateEnv where
  createResult : Option String
  get_seq : Nat → Option String
  hasRefresh : Bool

/-- `AWSVolumeService.create` (lines 312-332).  `Except.error
PyError.noneAttr` models the unhandled `AttributeError` from `res.id`
when the provider returned no object; `Except.ok none` is the `return
None` taken when `not wait_for_create(...)` is truthy. -/
def volumeServiceCreate (env : VolCreateEnv) (timeout : Nat) :
    Except PyError (Option String) :=
  match env.createResult with
  | none => Except.error PyError.noneAttr
  | some res =>
    if pyNot (wait_for_create env.get_seq env.hasRefresh timeout).1 then
      Except.ok none
    else
      Except.ok (some res)

/-! ## Data model for instance launch

Mirrors the inputs of `AWSInstanceService.create`,
`_resolve_launch_options` and `_process_block_device_mappings`
(lines 475-683).  Identifier-unwrapping of wrapper objects
(`image.id if isinstance(...) else image` and the like) is elided:
identifiers enter as plain strings. -/

/-- The `source` of a block device in a launch config: a `Snapshot`, a
`Volume`, a `MachineImage`, or `None` (lines 648-655 dispatch on
`isinstance`). -/
inductive BDSource where
  | snapshot (id : String)
  | volume (id : String)
  | image (id : String)
  | none
  deriving DecidableEq

/-- One entry of `launch_config.block_devices`. -/
structure BlockDeviceSpec where
  is_volume : Bool
  is_root : Bool
  source : BDSource
  size : Option Nat
  delete_on_terminate : Option Bool
  deriving DecidableEq

/-- `AWSLaunchConfig`: the ordered device specs and the network
interface references consumed by `_get_net_id`. -/
structure LaunchConfig where
  block_devices : List BlockDeviceSpec
  network_interfaces : List String
  deriving DecidableEq

/-- A boto `BlockDeviceType`: all fields default to `None` and are
assigned by `_process_block_device_mappings`. -/
structure BDEntry where
  snapshot_id : Option String
  volume_id : Option String
  ephemeral_name : Option String
  delete_on_terminate : Option Bool
  size : Option Nat
  deriving DecidableEq

/-- A fresh `BlockDeviceType()`. -/
def emptyBD : BDEntry := ⟨none, none, none, none, none⟩

/-- A boto `BlockDeviceMapping`, i.e. a dict from device name to
`BlockDeviceType`, modelled as an association list in insertion order. -/
abbrev Bdm := List (String × BDEntry)

/-- Python dict assignment `bdm[k] = v`: replace in place when the key
exists, append otherwise. -/
def dictInsert (m : Bdm) (k : String) (v : BDEntry) : Bdm :=
  if m.any (fun p => p.1 == k) then
    m.map (fun p => if p.1 == k then (k, v) else p)
  else m ++ [(k, v)]

/-- A VPC subnet as seen through `vpc_conn` / `AWSSubnet`. -/
structure Subnet where
  id : String
  vpc_id : String
  availability_zone : String
  deriving DecidableEq

/-- A security group as seen through the security-group service
(`vpc_id` is `None` for an EC2-Classic group). -/
structure SGroup where
  id : String
  name : String
  vpc_id : Option String
  deriving DecidableEq

/-- A VPC with its subnets in provider-returned order and its
`is_default` flag. -/
structure Vpc where
  id : String
  is_default : Bool
  subnets : List Subnet
  deriving DecidableEq

/-- The provider state the launch path reads: the subnets visible to
`vpc_conn.get_all_subnets`, the security groups, the VPCs returned by
`provider.network.list()` (in listing order), and the ids of the
volumes the volume-provisioning collaborator returns (the collaborator
call `provider.block_store.volumes.create` is abstracted by
`fresh_vol_id`; its internals are embedded separately as
`volumeServiceCreate`). -/
structure Env where
  all_subnets : List Subnet
  all_security_groups : List SGroup
  all_vpcs : List Vpc
  fresh_vol_id : Nat → String

/-- The security-group argument of `create`: a list of `SecurityGroup`
objects (represented by their ids) or a list of names.  The source
inspects the type of the first element, so the list is homogeneous. -/
inductive SGSpec where
  | objects (ids : List String)
  | names (ns : List String)
  deriving DecidableEq

/-- Python truthiness of the security-group list: an empty list is
falsy. -/
def SGSpec.truthy : SGSpec → Bool
  | SGSpec.objects ids => !ids.isEmpty
  | SGSpec.names ns => !ns.isEmpty

/-- Python truthiness of the optional security-group argument. -/
def sgTruthy : Option SGSpec → Bool
  | none => false
  | some sgs => sgs.truthy

/-- Mutating provider calls recorded while the launch path runs. -/
inductive Ev where
  | createVolume (size : Option Nat) (zone : String)
  | runInstances
  deriving DecidableEq

/-! ## The block-device-mapping builder

`_process_block_device_mappings` (lines 626-675). -/

/-- `string.ascii_lowercase`. -/
def ascii_lowercase : String := "abcdefghijklmnopqrstuvwxyz"

/-- `iter(list(string.ascii_lowercase[6:]))` (line 636): the letters the
device-letter cursor hands out, starting at `g`. -/
def next_letters : List Char := ascii_lowercase.toList.drop 6

/-- Message of the `InvalidConfigurationException` of lines 661-663. -/
def blankVolumeMsg : String :=
  "A zone must be specified when launching with a new blank volume block device mapping."

/-- The loop body of `_process_block_device_mappings` (lines 639-673),
one recursive step per device spec.  `letters` is the remaining state of
the `next_letter` iterator, `nvol` counts collaborator volume-create
calls (indexing `fresh_vol_id`), `bdm` and `tr` accumulate the mapping
and the trace of mutating provider calls.  Faithful details: the device
name (and possible `StopIteration`) is computed before the source is
examined; an image source sets no field (lines 652-654); a `None`
source with a falsy zone raises before any volume is created; in the
ephemeral branch the source computes `'ephemeral%s' % ephemeral_counter`
on a `BlockDeviceType` that is never inserted into `bdm`, and never
increments `ephemeral_counter`, so the step leaves all state unchanged
(see `ephemeralNamesComputed` for that discarded computation). -/
def processGo (env : Env) (zone : Option String) :
    List BlockDeviceSpec → List Char → Nat → Bdm → List Ev →
    Except PyError Bdm × List Ev
  | [], _, _, bdm, tr => (Except.ok bdm, tr)
  | d :: ds, letters, nvol, bdm, tr =>
    if d.is_volume then
      let keyStep : Except PyError (String × List Char) :=
        if d.is_root then Except.ok ("/dev/sda1", letters)
        else
          match letters with
          | [] => Except.error PyError.stopIteration
          | c :: rest => Except.ok ("sd".push c, rest)
      match keyStep with
      | Except.error e => (Except.error e, tr)
      | Except.ok (key, letters2) =>
        let srcStep : Except PyError (BDEntry × Nat × List Ev) :=
          match d.source with
          | BDSource.snapshot sid =>
            Except.ok ({ emptyBD with snapshot_id := some sid }, nvol, tr)
          | BDSource.volume vid =>
            Except.ok ({ emptyBD with volume_id := some vid }, nvol, tr)
          | BDSource.image _ =>
            Except.ok (emptyBD, nvol, tr)
          | BDSource.none =>
            if strTruthy zone then
              match zone with
              | some z =>
                Except.ok
                  ({ emptyBD with volume_id := some (env.fresh_vol_id nvol) },
                   nvol + 1, tr ++ [Ev.createVolume d.size z])
              | none => Except.error (PyError.invalidConfiguration blankVolumeMsg)
            else Except.error (PyError.invalidConfiguration blankVolumeMsg)
        match srcStep with
        | Except.error e => (Except.error e, tr)
        | Except.ok (entry0, nvol2, tr2) =>
          let entry : BDEntry :=
            { entry0 with
              delete_on_terminate := d.delete_on_terminate,
              size := if natOptTruthy d.size then d.size else none }
          processGo env zone ds letters2 nvol2 (dictInsert bdm key entry) tr2
    else
      processGo env zone ds letters nvol bdm tr

/-- `_process_block_device_mappings(launch_config, zone)`
(lines 626-675). -/
def processBlockDeviceMappings (env : Env) (lc : LaunchConfig)
    (zone : Option String) : Except PyError Bdm × List Ev :=
  processGo env zone lc.block_devices next_letters 0 [] []

/-- The ephemeral names the source computes (lines 637-638 and 672-673):
`ephemeral_counter` starts at 0 and is never incremented, so each
ephemeral spec formats the name `ephemeral0`, onto a `BlockDeviceType`
that is never inserted into the mapping. -/
def ephemeralNamesGo : List BlockDeviceSpec → Nat → List String
  | [], _ => []
  | d :: ds, counter =>
    if d.is_volume then ephemeralNamesGo ds counter
    else ("ephemeral" ++ toString counter) :: ephemeralNamesGo ds counter

/-- The names assigned to `bd_type.ephemeral_name` over a device list. -/
def ephemeralNamesComputed (ds : List BlockDeviceSpec) : List String :=
  ephemeralNamesGo ds 0

/-! ## The launch topology resolver

`_resolve_launch_options` and its helper `_deduce_subnet_and_zone`
(lines 518-592), plus `_process_security_groups` (lines 594-624). -/

/-- Message of the `ValueError` of lines 551-553. -/
def zoneMismatchMsg : String :=
  "Requested placement zone must match the specified subnet availability zone."

/-- Message of the `ValueError` of lines 567-569. -/
def multipleSgMsg : String :=
  "Multiple matches for VPC security groups."

/-- Message of the `AttributeError` of lines 579-581. -/
def sgVpcMsg : String :=
  "Supplied security groups must be associated with a VPC."

/-- Message of the `AttributeError` of lines 589-591. -/
def noDefaultVpcMsg : String :=
  "No default VPC exists. Supply a subnet to launch into."

/-- `_deduce_subnet_and_zone(vpc, zone_id)` (lines 526-541).  When a
truthy zone is given, the source loops over all subnets assigning
`subnet_id` on every zone match without breaking (so the final value is
the last match), and raises `UnboundLocalError` on the `return` when no
subnet matched.  When the zone is falsy it takes `vpc.subnets()[0]`
(raising `IndexError` when there are none) and adopts that subnet's
availability zone. -/
def deduceSubnetAndZone (vpc : Vpc) (zone_id : Option String) :
    Except PyError (String × Option String) :=
  if strTruthy zone_id then
    match vpc.subnets.foldl
        (fun acc sn =>
          if some sn.availability_zone == zone_id then some sn.id else acc)
        none with
    | some sid => Except.ok (sid, zone_id)
    | none => Except.error (PyError.unboundLocal "subnet_id")
  else
    match vpc.subnets.head? with
    | some sn => Except.ok (sn.id, some sn.availability_zone)
    | none => Except.error PyError.indexError

/-- `_process_security_groups(security_groups, vpc_id)` (lines 594-624):
`SecurityGroup` objects are mapped to their ids; names are matched
against the account's security groups, restricted to the given VPC when
one is truthy. -/
def processSecurityGroups (env : Env) (sgs : SGSpec) (vpc_id : Option String) :
    List String :=
  match sgs with
  | SGSpec.objects ids => ids
  | SGSpec.names ns =>
    let pool :=
      if strTruthy vpc_id then
        env.all_security_groups.filter (fun g => g.vpc_id == vpc_id)
      else env.all_security_groups
    (pool.filter (fun g => ns.contains g.name)).map (fun g => g.id)

/-- The `for sg_id in _sg_ids` loop of lines 563-575 (entered only when
no subnet was established yet).  For each group id: look it up (an
absent group makes `sg._security_group` an attribute access on `None`);
skip groups with a falsy `vpc_id`; raise the multiple-match `ValueError`
when `sg_ids` is nonempty and does not already contain this id;
otherwise append the id (possibly a duplicate), fetch the group's VPC
(`none` from the network service again gives an attribute access on
`None`) and re-run `_deduce_subnet_and_zone`, overwriting `subnet_id`
and `zone_id`. -/
def sgDiscoverLoop (env : Env) :
    List String → List String → Option String → Option String →
    Except PyError (List String × Option String × Option String)
  | [], sg_ids, subnet_id, zone_id => Except.ok (sg_ids, subnet_id, zone_id)
  | sg_id :: rest, sg_ids, subnet_id, zone_id =>
    match env.all_security_groups.find? (fun g => g.id == sg_id) with
    | none => Except.error PyError.noneAttr
    | some sg =>
      if strTruthy sg.vpc_id then
        if !sg_ids.isEmpty && !sg_ids.contains sg_id then
          Except.error (PyError.valueError multipleSgMsg)
        else
          match env.all_vpcs.find? (fun v => some v.id == sg.vpc_id) with
          | none => Except.error PyError.noneAttr
          | some vpc =>
            match deduceSubnetAndZone vpc zone_id with
            | Except.error e => Except.error e
            | Except.ok (sid, zid) =>
              sgDiscoverLoop env rest (sg_ids ++ [sg_id]) (some sid) zid
      else
        sgDiscoverLoop env rest sg_ids subnet_id zone_id

/-- The `for vpc in self.provider.network.list()` loop of lines 584-587:
every default VPC overwrites `vpc_id`, `subnet_id` and `zone_id` via
`_deduce_subnet_and_zone`. -/
def defaultVpcLoop (env : Env) :
    List Vpc → Option String → Option String → Option String →
    Except PyError (Option String × Option String × Option String)
  | [], vpc_id, subnet_id, zone_id => Except.ok (vpc_id, subnet_id, zone_id)
  | vpc :: rest, vpc_id, subnet_id, zone_id =>
    if vpc.is_default then
      match deduceSubnetAndZone vpc zone_id with
      | Except.error e => Except.error e
      | Except.ok (sid, zid) =>
        defaultVpcLoop env rest (some vpc.id) (some sid) zid
    else
      defaultVpcLoop env rest vpc_id subnet_id zone_id

/-- `_resolve_launch_options(subnet_id, zone_id, security_groups)`
(lines 518-592), returning `(subnet_id, zone_id, sg_ids)`. -/
def resolveLaunchOptions (env : Env) (subnet_id0 zone_id0 : Option String)
    (security_groups : Option SGSpec) :
    Except PyError (Option String × Option String × List String) :=
  -- vpc_id = None; sg_ids = []; if subnet_id: ... (lines 543-553)
  let step1 : Except PyError (Option String) :=
    if strTruthy subnet_id0 then
      match env.all_subnets.find? (fun sn => some sn.id == subnet_id0) with
      | none => Except.error PyError.indexError
      | some subnet =>
        if strTruthy zone_id0 && !(some subnet.availability_zone == zone_id0)
        then Except.error (PyError.valueError zoneMismatchMsg)
        else Except.ok (some subnet.vpc_id)
    else Except.ok none
  match step1 with
  | Except.error e => Except.error e
  | Except.ok vpc_id =>
    -- if security_groups: ... (lines 554-581)
    let step2 : Except PyError (List String × Option String × Option String) :=
      if sgTruthy security_groups then
        match security_groups with
        | some sgs =>
          let us := processSecurityGroups env sgs vpc_id
          if !(strTruthy subnet_id0) then
            match sgDiscoverLoop env us [] subnet_id0 zone_id0 with
            | Except.error e => Except.error e
            | Except.ok (ids, sid, zid) =>
              if !(strTruthy sid) then
                Except.error (PyError.attributeError sgVpcMsg)
              else Except.ok (ids, sid, zid)
          else Except.ok (us, subnet_id0, zone_id0)
        | none => Except.ok ([], subnet_id0, zone_id0)
      else Except.ok ([], subnet_id0, zone_id0)
    match step2 with
    | Except.error e => Except.error e
    | Except.ok (sg_ids, subnet_id1, zone_id1) =>
      -- if not subnet_id and not security_groups: ... (lines 582-591)
      if !(strTruthy subnet_id1) && !(sgTruthy security_groups) then
        match defaultVpcLoop env env.all_vpcs vpc_id subnet_id1 zone_id1 with
        | Except.error e => Except.error e
        | Except.ok (vpc_id1, sid, zid) =>
          if !(strTruthy vpc_id1) then
            Except.error (PyError.attributeError noDefaultVpcMsg)
          else Except.ok (sid, zid, sg_ids)
      else Except.ok (subnet_id1, zone_id1, sg_ids)

/-! ## AWSInstanceService.create

Lines 480-516.  The `run_instances` call is recorded as an event and
its argument bundle is the returned value; the post-create wrapping
(`time.sleep(2)`, name assignment) is not needed by any claim and is
elided. -/

/-- `_get_net_id(launch_config)` (lines 677-680). -/
def getNetId (lc : LaunchConfig) : Option String :=
  lc.network_interfaces.head?

/-- The arguments `create` passes to `ec2_conn.run_instances`
(lines 506-510), restricted to those the resolution and
block-device stages produce. -/
structure RunInstancesCall where
  placement : Option String
  security_group_ids : List String
  subnet_id : Option String
  block_device_map : Option Bdm
  deriving DecidableEq

/-- `AWSInstanceService.create` (lines 480-516): when a launch config is
given, first build the block-device mapping with the caller-supplied
zone, then read the subnet from the launch config, then resolve the
launch options, and only then issue `run_instances`. -/
def instanceCreate (env : Env) (zone : Option String)
    (security_groups : Option SGSpec) (launch_config : Option LaunchConfig) :
    Except PyError RunInstancesCall × List Ev :=
  match launch_config with
  | some lc =>
    match processBlockDeviceMappings env lc zone with
    | (Except.error e, tr) => (Except.error e, tr)
    | (Except.ok bdm, tr) =>
      match resolveLaunchOptions env (getNetId lc) zone security_groups with
      | Except.error e => (Except.error e, tr)
      | Except.ok (sid, zid, sgids) =>
        (Except.ok
          { placement := zid, security_group_ids := sgids,
            subnet_id := sid, block_device_map := some bdm },
         tr ++ [Ev.runInstances])
  | none =>
    match resolveLaunchOptions env none zone security_groups with
    | Except.error e => (Except.error e, [])
    | Except.ok (sid, zid, sgids) =>
      (Except.ok
        { placement := zid, security_group_ids := sgids,
          subnet_id := sid, block_device_map := none },
       [Ev.runInstances])

/-! ## Derived notions used by the theorems -/

/-- With a falsy zone, whether processing the device list reaches the
blank-volume Configuration check of the first blank-volume spec before
the device-letter iterator (with `k` letters remaining) is exhausted:
the builder raises the `InvalidConfigurationException` exactly in this
case, and `StopIteration` otherwise. -/
def blankReachable : List BlockDeviceSpec → Nat → Bool
  | [], _ => false
  | d :: ds, k =>
    if d.is_volume then
      if d.is_root then
        if d.source == BDSource.none then true else blankReachable ds k
      else
        match k with
        | 0 => false
        | Nat.succ k2 =>
          if d.source == BDSource.none then true else blankReachable ds k2
    else blankReachable ds k

/-- The device names the builder hands out, in spec order: a root
volume always gets the fixed root slot `/dev/sda1` regardless of the
cursor, a non-root volume consumes the next cursor letter, an ephemeral
spec consumes nothing. -/
def bdKeys : List BlockDeviceSpec → List Char → List String
  | [], _ => []
  | d :: ds, letters =>
    if d.is_volume then
      if d.is_root then "/dev/sda1" :: bdKeys ds letters
      else
        match letters with
        | [] => []
        | c :: rest => ("sd".push c) :: bdKeys ds rest
    else bdKeys ds letters

/-- Number of root persistent-volume specs in a device list. -/
def countRootVol (ds : List BlockDeviceSpec) : Nat :=
  (ds.filter (fun d => d.is_volume && d.is_root)).length

/-- Number of non-root persistent-volume specs in a device list (the
specs that consume device letters). -/
def countNonRootVol (ds : List BlockDeviceSpec) : Nat :=
  (ds.filter (fun d => d.is_volume && !d.is_root)).length

/-! ## Concrete provider states and launch inputs used by the
counterexamples and witnesses -/

/-- A provider state with a single subnet `s1` in zone `z2` of VPC
`v1`. -/
def env1 : Env :=
  { all_subnets := [⟨"s1", "v1", "z2"⟩], all_security_groups := [],
    all_vpcs := [], fresh_vol_id := fun n => "vol-" ++ toString n }

/-- A provider state with a single subnet `s1` in zone `za` of VPC
`v1`. -/
def env2 : Env :=
  { all_subnets := [⟨"s1", "v1", "za"⟩], all_security_groups := [],
    all_vpcs := [], fresh_vol_id := fun n => "vol-" ++ toString n }

/-- A default VPC whose subnets `s1`, `s2` (provider order) both live in
zone `z`. -/
def vpc4 : Vpc := ⟨"v1", true, [⟨"s1", "v1", "z"⟩, ⟨"s2", "v1", "z"⟩]⟩

/-- A provider state whose only VPC is the default VPC `vpc4`. -/
def env4 : Env :=
  { all_subnets := [], all_security_groups := [], all_vpcs := [vpc4],
    fresh_vol_id := fun n => "vol-" ++ toString n }

/-- A provider state with no networks at all (the launch paths under
test only consult `fresh_vol_id`). -/
def env0 : Env :=
  { all_subnets := [], all_security_groups := [], all_vpcs := [],
    fresh_vol_id := fun n => "vol-" ++ toString n }

/-- A blank-volume device spec: destination volume, no source. -/
def blankSpec : BlockDeviceSpec :=
  { is_volume := true, is_root := false, source := BDSource.none,
    size := some 8, delete_on_terminate := some true }

/-- An ephemeral device spec. -/
def ephSpec : BlockDeviceSpec :=
  { is_volume := false, is_root := false, source := BDSource.none,
    size := none, delete_on_terminate := none }

/-- A root volume spec sourced from a snapshot. -/
def rootSpec : BlockDeviceSpec :=
  { is_volume := true, is_root := true, source := BDSource.snapshot "snap-1",
    size := some 20, delete_on_terminate := some true }

/-- A non-root volume spec sourced from a snapshot. -/
def nrSpec1 : BlockDeviceSpec :=
  { is_volume := true, is_root := false, source := BDSource.snapshot "snap-2",
    size := none, delete_on_terminate := some false }

/-- A non-root volume spec sourced from an existing volume. -/
def nrSpec2 : BlockDeviceSpec :=
  { is_volume := true, is_root := false, source := BDSource.volume "vol-7",
    size := some 0, delete_on_terminate := none }

/-- Launch config with one blank volume, placed into subnet `s1`. -/
def lc1 : LaunchConfig :=
  { block_devices := [blankSpec], network_interfaces := ["s1"] }

/-- Launch config with two ephemeral specs. -/
def lc3 : LaunchConfig :=
  { block_devices := [ephSpec, ephSpec], network_interfaces := [] }

/-- Launch config with 21 snapshot-sourced non-root volume specs
followed by a blank-volume spec: the 21st spec exhausts the 20-letter
device-name iterator. -/
def lc5 : LaunchConfig :=
  { block_devices := List.replicate 21 nrSpec1 ++ [blankSpec],
    network_interfaces := [] }

/-- Launch config with a single blank-volume spec. -/
def lc5b : LaunchConfig :=
  { block_devices := [blankSpec], network_interfaces := [] }

/-- Launch config with one root volume spec, two non-root volume specs
and an ephemeral spec between them. -/
def lc9 : LaunchConfig :=
  { block_devices := [rootSpec, nrSpec1, ephSpec, nrSpec2],
    network_interfaces := [] }

/-- A volume-create environment whose provider returns volume `vol-1`,
immediately visible to polling, wrapped by a kind without a refresh
capability. -/
def env7 : VolCreateEnv :=
  { createResult := some "vol-1", get_seq := fun _ => some "vol-1",
    hasRefresh := false }

/-- A filter environment whose listing finds nothing. -/
def envDeleteAbsent : FilterEnv :=
  { filterResult := Except.ok [], deleteRaises := false }

/-- A filter environment whose listing finds `r1` and whose provider
delete call raises. -/
def envDeletePresentErr : FilterEnv :=
  { filterResult := Except.ok ["r1"], deleteRaises := true }

/-! # Theorems -/

/-- Claim C6: for every value/filter pair, if the adapter's get finds no
resource then adapter delete returns true without invoking any provider
delete call; if the resource exists, delete returns false exactly when
the provider reports an error on the delete call and true otherwise.
(`filterDelete` returns the pair (returned boolean, whether the
provider delete call was issued).) -/
theorem C6_delete_idempotent (env : FilterEnv) :
    (filterGet env = none → filterDelete env = (true, false)) ∧
    (∀ r, filterGet env = some r →
      filterDelete env = (!env.deleteRaises, true)) := by
  constructor
  · intro h
    simp [filterDelete, h]
  · intro r h
    cases hd : env.deleteRaises <;> simp [filterDelete, h, hd]

/-- Witness for C6: an absent resource is deleted as a no-op success,
and a present resource whose provider delete raises yields false with
the delete call issued. -/
theorem C6_witness :
    filterDelete envDeleteAbsent = (true, false) ∧
    filterDelete envDeletePresentErr = (false, true) :=
  ⟨(C6_delete_idempotent envDeleteAbsent).1 rfl,
   (C6_delete_idempotent envDeletePresentErr).2 "r1" rfl⟩

/-- Claim C10: with a zone supplied, no subnet supplied, and the
network discovered via the default network containing no subnet in that
zone, topology resolution raises the unhandled `UnboundLocalError` from
reading the never-assigned local `subnet_id` — an error that is neither
of the specified Conflict/Configuration errors. -/
theorem C10_unbound_local :
    resolveLaunchOptions env4 none (some "zb") none =
      Except.error (PyError.unboundLocal "subnet_id") ∧
    (PyError.unboundLocal "subnet_id").isConflict = false ∧
    (PyError.unboundLocal "subnet_id").isConfiguration = false := by
  decide

/-- Claim C3 (code evaluation at the failing input): for a launch config
with two ephemeral specs, the finished block-device mapping is empty —
no `ephemeral<i>` entry is ever inserted — and the names the source
computes onto the discarded `BlockDeviceType` objects are `ephemeral0`
both times, because `ephemeral_counter` is never incremented. -/
theorem C3_code_evaluation :
    processBlockDeviceMappings env0 lc3 (some "z") = (Except.ok [], []) ∧
    ephemeralNamesComputed lc3.block_devices = ["ephemeral0", "ephemeral0"] := by
  decide

/-- Counterexample for C8: at the default timeout of 15, a resource that
never becomes visible makes `wait_for_create` report a timeout only
after 30 seconds of sleeping (15 iterations of 2 seconds), not after at
most 15 seconds; `wait_for_delete` on a resource that never disappears
behaves the same. -/
theorem C8_counterexample :
    wait_for_create (fun _ => none) false default_timeout =
      (WaitOutcome.timedOut, 30) ∧
    wait_for_delete (fun _ => some "r") default_timeout = (false, 30) ∧
    ¬(30 ≤ default_timeout) := by
  decide

/-- Counterexample for C2: with subnet `s1` (whose own availability zone
is `za`) supplied and no zone supplied, resolution succeeds but returns
zone `none`, not the subnet's zone `za`. -/
theorem C2_counterexample :
    resolveLaunchOptions env2 (some "s1") none none =
      Except.ok (some "s1", none, []) ∧
    (env2.all_subnets.find? (fun sn => some sn.id == some "s1")).map
        (fun sn => sn.availability_zone) = some "za" ∧
    (none : Option String) ≠ some "za" := by
  decide

/-- Counterexample for C4: the default VPC `vpc4` has two subnets `s1`,
`s2` (in that provider order) in zone `z`; with zone `z` supplied,
subnet selection returns `s2` — the last matching subnet — not the
first subnet `s1`. -/
theorem C4_counterexample :
    vpc4.subnets.head? = some ⟨"s1", "v1", "z"⟩ ∧
    deduceSubnetAndZone vpc4 (some "z") = Except.ok ("s2", some "z") ∧
    resolveLaunchOptions env4 none (some "z") none =
      Except.ok (some "s2", some "z", []) := by
  decide

/-- Counterexample for C1: launching with a blank-volume spec, zone
`z1`, and subnet `s1` whose zone is `z2` first issues the blank-volume
creation call and only afterwards raises the resolution Conflict error —
refuting that resolution errors precede every mutating provider call. -/
theorem C1_counterexample :
    (instanceCreate env1 (some "z1") none (some lc1)).1 =
      Except.error (PyError.valueError zoneMismatchMsg) ∧
    (PyError.valueError zoneMismatchMsg).isConflict = true ∧
    Ev.createVolume (some 8) "z1" ∈
      (instanceCreate env1 (some "z1") none (some lc1)).2 := by
  decide

/-- Counterexample for C5: a launch config with 21 snapshot-sourced
non-root volume specs followed by a blank-volume spec and no zone fails
with `StopIteration` (letter-iterator exhaustion), not with the
Configuration error — though still with no mutating provider call. -/
theorem C5_counterexample :
    lc5.block_devices.any
      (fun d => d.is_volume && d.source == BDSource.none) = true ∧
    instanceCreate env0 none none (some lc5) =
      (Except.error PyError.stopIteration, []) ∧
    PyError.stopIteration.isConfiguration = false := by
  decide

/-- Counterexample for C7: volume creation succeeds and the volume is
visible at the very first poll, so `wait_for_create` returns the
distinct unsupported outcome (the kind lacks a refresh capability) —
yet the calling `AWSVolumeService.create` tests that outcome for
truthiness and returns an absent result instead of the created
handle. -/
theorem C7_counterexample :
    wait_for_create env7.get_seq env7.hasRefresh default_timeout =
      (WaitOutcome.unsupported, 2) ∧
    volumeServiceCreate env7 default_timeout = Except.ok none := by
  decide

/-- The total seconds slept by the create-wait loop are at most twice
the value of its `timeout` counter. -/
theorem waitCreateGo_sleep_le (g : Nat → Option String) (hr : Bool) :
    ∀ (fuel k : Nat), (waitCreateGo g hr fuel k).2 ≤ 2 * fuel := by
  intro fuel
  induction fuel with
  | zero => intro k; simp [waitCreateGo]
  | succ n ih =>
    intro k
    cases hg : g k with
    | some v => simp [waitCreateGo, hg]
    | none =>
      have h := ih (k + 1)
      simp [waitCreateGo, hg]
      omega

/-- The total seconds slept by the delete-wait loop are at most twice
the value of its `timeout` counter. -/
theorem waitDeleteGo_sleep_le (g : Nat → Option String) :
    ∀ (fuel k : Nat), (waitDeleteGo g fuel k).2 ≤ 2 * fuel := by
  intro fuel
  induction fuel with
  | zero => intro k; simp [waitDeleteGo]
  | succ n ih =>
    intro k
    cases hg : g k with
    | none => simp [waitDeleteGo, hg]
    | some v =>
      have h := ih (k + 1)
      simp [waitDeleteGo, hg]
      omega

/-- Claim C8 (amended): each call to `wait_for_create` or
`wait_for_delete` blocks the calling thread for at most 2 × timeout
seconds — the loop performs up to `timeout` iterations of a fixed
2-second sleep (so up to 30 seconds at the default of 15) — before
reporting a timeout outcome. -/
theorem C8_amended (g : Nat → Option String) (hr : Bool) (t : Nat) :
    (wait_for_create g hr t).2 ≤ 2 * t ∧
    (wait_for_delete g t).2 ≤ 2 * t :=
  ⟨waitCreateGo_sleep_le g hr t 0, waitDeleteGo_sleep_le g t 0⟩

/-- If the resource becomes visible within the iteration budget and the
wrapped kind lacks a refresh capability, the create-wait loop returns
the unsupported outcome. -/
theorem waitCreateGo_unsupported (g : Nat → Option String) :
    ∀ (fuel k : Nat), (∃ j, j < fuel ∧ (g (k + j)).isSome = true) →
    (waitCreateGo g false fuel k).1 = WaitOutcome.unsupported := by
  intro fuel
  induction fuel with
  | zero =>
    intro k h
    obtain ⟨j, hj, _⟩ := h
    omega
  | succ n ih =>
    intro k h
    obtain ⟨j, hj, hs⟩ := h
    cases hg : g k with
    | some v => simp [waitCreateGo, hg]
    | none =>
      cases j with
      | zero =>
        rw [Nat.add_zero, hg] at hs
        simp at hs
      | succ j2 =>
        have hs2 : (g ((k + 1) + j2)).isSome = true := by
          have harr : k + (j2 + 1) = (k + 1) + j2 := by omega
          rwa [harr] at hs
        simp [waitCreateGo, hg]
        exact ih (k + 1) ⟨j2, by omega, hs2⟩

/-- Claim C7 (amended): for a resource kind whose wrapped handle lacks a
refresh capability, `wait_for_create` returns the distinct unsupported
outcome (never timed-out, never confirmed) as soon as the resource is
visible within the budget; however the calling `AWSVolumeService.create`
tests the tri-state result for truthiness, so it treats unsupported like
a failure and returns an absent result instead of the created handle. -/
theorem C7_amended (env : VolCreateEnv) (t : Nat) (r : String)
    (hcr : env.createResult = some r) (hrf : env.hasRefresh = false)
    (hvis : ∃ j, j < t ∧ (env.get_seq j).isSome = true) :
    (wait_for_create env.get_seq env.hasRefresh t).1 =
      WaitOutcome.unsupported ∧
    volumeServiceCreate env t = Except.ok none := by
  have h1 : (wait_for_create env.get_seq env.hasRefresh t).1 =
      WaitOutcome.unsupported := by
    rw [hrf]
    apply waitCreateGo_unsupported
    obtain ⟨j, hj, hs⟩ := hvis
    exact ⟨j, hj, by simpa using hs⟩
  refine ⟨h1, ?_⟩
  simp [volumeServiceCreate, hcr, h1, pyNot]

/-- Witness for C7: applying the theorem at the concrete environment
`env7` (volume visible at the first poll, no refresh capability). -/
theorem C7_witness :
    env7.createResult = some "vol-1" ∧ env7.hasRefresh = false ∧
    (∃ j, j < default_timeout ∧ (env7.get_seq j).isSome = true) ∧
    ((wait_for_create env7.get_seq env7.hasRefresh default_timeout).1 =
        WaitOutcome.unsupported ∧
      volumeServiceCreate env7 default_timeout = Except.ok none) :=
  ⟨rfl, rfl, ⟨0, by decide, rfl⟩,
   C7_amended env7 default_timeout "vol-1" rfl rfl ⟨0, by decide, rfl⟩⟩

/-- Claim C2 (amended): with a subnet supplied (and present in the
provider), no zone supplied and no security groups supplied, resolution
succeeds and returns the supplied subnet with the zone left unset
(`none`): the subnet's own availability zone is only consulted for the
conflict check when a zone is supplied, never adopted. -/
theorem C2_amended (env : Env) (sid : String) (sn : Subnet)
    (hs : sid ≠ "")
    (hfind : env.all_subnets.find? (fun s => s.id == sid) = some sn) :
    resolveLaunchOptions env (some sid) none none =
      Except.ok (some sid, none, []) := by
  have ht : strTruthy (some sid) = true := by
    simp [strTruthy, hs]
  simp [resolveLaunchOptions, ht, hfind, strTruthy, sgTruthy, hs]

/-- Witness for C2: applying the theorem at `env2` and subnet `s1`. -/
theorem C2_witness :
    ("s1" ≠ "") ∧
    resolveLaunchOptions env2 (some "s1") none none =
      Except.ok (some "s1", none, []) :=
  ⟨by decide, C2_amended env2 "s1" ⟨"s1", "v1", "za"⟩ (by decide) (by decide)⟩

/-- A fold that overwrites its accumulator on every predicate match
computes the last match of the list. -/
theorem lastMatch_foldl (z : String) :
    ∀ (l : List Subnet) (acc : Option String),
    l.foldl
      (fun a sn =>
        if some sn.availability_zone == some z then some sn.id else a)
      acc =
      (match (l.filter (fun sn => sn.availability_zone == z)).getLast? with
       | some sn => some sn.id
       | none => acc) := by
  intro l
  induction l with
  | nil => intro acc; rfl
  | cons a l ih =>
    intro acc
    rw [List.foldl_cons, ih]
    by_cases hp : a.availability_zone == z
    · rw [List.filter_cons_of_pos (by simpa using hp)]
      cases hfl : l.filter (fun sn => sn.availability_zone == z) with
      | nil => simp [Option.some_beq_some, hp]
      | cons x xs =>
        rw [List.getLast?_cons_cons]
        cases hgl : (x :: xs).getLast? with
        | none => exact absurd (List.getLast?_eq_none_iff.mp hgl) (by simp)
        | some sn => rfl
    · rw [List.filter_cons_of_neg (by simpa using hp)]
      simp only [Option.some_beq_some]
      rw [if_neg (by simpa using hp)]

/-- Claim C4 (amended): when a network is discovered during topology
resolution, subnet selection picks that network's LAST subnet matching
the supplied zone when a (nonempty) zone was given — the selection loop
overwrites its choice on every match without breaking — raising
`UnboundLocalError` when none matches; with no zone it picks the first
subnet in provider-returned order and adopts that subnet's availability
zone as the effective zone. -/
theorem C4_amended (vpc : Vpc) (z : String) (hz : z ≠ "") :
    deduceSubnetAndZone vpc (some z) =
      (match (vpc.subnets.filter
          (fun sn => sn.availability_zone == z)).getLast? with
       | some sn => Except.ok (sn.id, some z)
       | none => Except.error (PyError.unboundLocal "subnet_id")) ∧
    deduceSubnetAndZone vpc none =
      (match vpc.subnets.head? with
       | some sn => Except.ok (sn.id, some sn.availability_zone)
       | none => Except.error PyError.indexError) := by
  constructor
  · have ht : strTruthy (some z) = true := by simp [strTruthy, hz]
    unfold deduceSubnetAndZone
    rw [if_pos ht, lastMatch_foldl z vpc.subnets none]
    cases hfl :
        (vpc.subnets.filter (fun sn => sn.availability_zone == z)).getLast?
      with
    | none => rfl
    | some sn => rfl
  · unfold deduceSubnetAndZone
    rw [if_neg (by simp [strTruthy])]

/-- Witness for C4: applying the amended theorem at the concrete VPC
`vpc4` and zone `z`. -/
theorem C4_witness :
    deduceSubnetAndZone vpc4 (some "z") =
      (match (vpc4.subnets.filter
          (fun sn => sn.availability_zone == "z")).getLast? with
       | some sn => Except.ok (sn.id, some "z")
       | none => Except.error (PyError.unboundLocal "subnet_id")) :=
  (C4_amended vpc4 "z" (by decide)).1

/-- The block-device builder only ever appends volume-creation events
to the trace: it never records an instance-create call. -/
theorem processGo_no_run (env : Env) (zone : Option String) :
    ∀ (ds : List BlockDeviceSpec) (letters : List Char) (nvol : Nat)
      (bdm : Bdm) (tr : List Ev),
    Ev.runInstances ∉ tr →
    Ev.runInstances ∉ (processGo env zone ds letters nvol bdm tr).2 := by
  intro ds
  induction ds with
  | nil =>
    intro letters nvol bdm tr htr
    simpa [processGo] using htr
  | cons d ds ih =>
    intro letters nvol bdm tr htr
    by_cases hv : d.is_volume = true
    · by_cases hr : d.is_root = true
      · cases hsrc : d.source with
        | snapshot sid =>
          simp only [processGo, hv, hr, hsrc, if_true]
          exact ih _ _ _ _ htr
        | volume vid =>
          simp only [processGo, hv, hr, hsrc, if_true]
          exact ih _ _ _ _ htr
        | image iid =>
          simp only [processGo, hv, hr, hsrc, if_true]
          exact ih _ _ _ _ htr
        | none =>
          by_cases hz : strTruthy zone = true
          · cases zone with
            | none => simp [strTruthy] at hz
            | some zz =>
              simp only [processGo, hv, hr, hsrc, hz, if_true]
              refine ih _ _ _ _ ?_
              simp [htr]
          · simp only [processGo, hv, hr, hsrc, hz, if_true]
            simp only [Bool.false_eq_true, if_false]
            simpa using htr
      · cases letters with
        | nil =>
          simp only [processGo, hv, hr]
          simpa using htr
        | cons c rest =>
          cases hsrc : d.source with
          | snapshot sid =>
            simp only [processGo, hv, hr, hsrc]
            exact ih _ _ _ _ htr
          | volume vid =>
            simp only [processGo, hv, hr, hsrc]
            exact ih _ _ _ _ htr
          | image iid =>
            simp only [processGo, hv, hr, hsrc]
            exact ih _ _ _ _ htr
          | none =>
            by_cases hz : strTruthy zone = true
            · cases zone with
              | none => simp [strTruthy] at hz
              | some zz =>
                simp only [processGo, hv, hr, hsrc, hz, if_true]
                refine ih _ _ _ _ ?_
                simp [htr]
            · simp only [processGo, hv, hr, hsrc, hz]
              simp only [Bool.false_eq_true, if_false]
              simpa using htr
    · simp only [processGo, hv]
      simp only [Bool.false_eq_true, if_false]
      exact ih _ _ _ _ htr

/-- Claim C1 (amended): within a single launch, block-device-mapping
construction (including any blank-volume creation) runs BEFORE topology
resolution; whenever the launch fails with any error — in particular a
resolution Conflict or Configuration error — the instance-create call
has not been issued, but blank-volume creation calls may already have
been (see the counterexample). -/
theorem C1_amended (env : Env) (zone : Option String) (sgs : Option SGSpec)
    (lc : Option LaunchConfig) (e : PyError)
    (herr : (instanceCreate env zone sgs lc).1 = Except.error e) :
    Ev.runInstances ∉ (instanceCreate env zone sgs lc).2 := by
  cases lc with
  | none =>
    rw [instanceCreate] at herr ⊢
    cases hres : resolveLaunchOptions env none zone sgs with
    | error e2 => simp
    | ok v =>
      rw [hres] at herr
      obtain ⟨a, b, c⟩ := v
      simp at herr
  | some lc =>
    have hptr0 : Ev.runInstances ∉ (processBlockDeviceMappings env lc zone).2 :=
      processGo_no_run env zone lc.block_devices next_letters 0 [] [] (by simp)
    rw [instanceCreate] at herr ⊢
    cases hp : processBlockDeviceMappings env lc zone with
    | mk pres ptr =>
      rw [hp] at hptr0 herr
      cases pres with
      | error e2 => simpa using hptr0
      | ok bdm =>
        cases hres : resolveLaunchOptions env (getNetId lc) zone sgs with
        | error e2 => simpa using hptr0
        | ok v =>
          rw [hres] at herr
          obtain ⟨a, b, c⟩ := v
          simp at herr

/-- With a falsy zone and at least one blank-volume spec, the builder
always fails without recording any mutating call; the error is the
blank-volume `InvalidConfigurationException` exactly when the first
blank-volume spec is reached before the letter iterator runs out, and
`StopIteration` otherwise. -/
theorem processGo_none_zone (env : Env) :
    ∀ (ds : List BlockDeviceSpec) (letters : List Char) (nvol : Nat)
      (bdm : Bdm) (tr : List Ev),
    ds.any (fun d => d.is_volume && d.source == BDSource.none) = true →
    processGo env none ds letters nvol bdm tr =
      (Except.error
        (if blankReachable ds letters.length
         then PyError.invalidConfiguration blankVolumeMsg
         else PyError.stopIteration), tr) := by
  intro ds
  induction ds with
  | nil =>
    intro letters nvol bdm tr h
    simp at h
  | cons d ds ih =>
    intro letters nvol bdm tr h
    by_cases hv : d.is_volume = true
    · by_cases hsrc : d.source = BDSource.none
      · by_cases hr : d.is_root = true
        · simp [processGo, blankReachable, hv, hr, hsrc, strTruthy]
        · cases letters with
          | nil => simp [processGo, blankReachable, hv, hr, hsrc]
          | cons c rest =>
            simp [processGo, blankReachable, hv, hr, hsrc, strTruthy]
      · have h2 : ds.any
            (fun d => d.is_volume && d.source == BDSource.none) = true := by
          have hb : (d.source == BDSource.none) = false := by
            simpa using hsrc
          simpa [hb] using h
        by_cases hr : d.is_root = true
        · cases hs2 : d.source with
          | snapshot sid =>
            simp only [processGo, hv, hr, hs2, if_true]
            rw [ih _ _ _ _ h2]
            simp [blankReachable, hv, hr, hs2]
          | volume vid =>
            simp only [processGo, hv, hr, hs2, if_true]
            rw [ih _ _ _ _ h2]
            simp [blankReachable, hv, hr, hs2]
          | image iid =>
            simp only [processGo, hv, hr, hs2, if_true]
            rw [ih _ _ _ _ h2]
            simp [blankReachable, hv, hr, hs2]
          | none => exact absurd hs2 hsrc
        · cases letters with
          | nil => simp [processGo, blankReachable, hv, hr]
          | cons c rest =>
            cases hs2 : d.source with
            | snapshot sid =>
              simp only [processGo, hv, hr, hs2]
              simp [blankReachable, hv, hr, hs2]
              exact ih _ _ _ _ h2
            | volume vid =>
              simp only [processGo, hv, hr, hs2]
              simp [blankReachable, hv, hr, hs2]
              exact ih _ _ _ _ h2
            | image iid =>
              simp only [processGo, hv, hr, hs2]
              simp [blankReachable, hv, hr, hs2]
              exact ih _ _ _ _ h2
            | none => exact absurd hs2 hsrc
    · have h2 : ds.any
          (fun d => d.is_volume && d.source == BDSource.none) = true := by
        simpa [hv] using h
      simp only [processGo, blankReachable, hv]
      simp only [Bool.false_eq_true, if_false]
      exact ih _ _ _ _ h2

/-- Claim C5 (amended): if a launch config contains a blank-volume spec
and no zone was supplied anywhere, the launch fails before any provider
mutating call is issued (neither a volume-create nor an instance-create
event is recorded); the error is the Configuration error exactly when
the first blank-volume spec is reached before the 20-letter device-name
iterator is exhausted, and the iterator-exhaustion `StopIteration`
otherwise. -/
theorem C5_amended (env : Env) (sgs : Option SGSpec) (lc : LaunchConfig)
    (hblank : lc.block_devices.any
      (fun d => d.is_volume && d.source == BDSource.none) = true) :
    instanceCreate env none sgs (some lc) =
      (Except.error
        (if blankReachable lc.block_devices 20
         then PyError.invalidConfiguration blankVolumeMsg
         else PyError.stopIteration), []) := by
  have h20 : next_letters.length = 20 := by decide
  have hrun : processBlockDeviceMappings env lc none =
      (Except.error
        (if blankReachable lc.block_devices 20
         then PyError.invalidConfiguration blankVolumeMsg
         else PyError.stopIteration), []) := by
    rw [processBlockDeviceMappings,
      processGo_none_zone env lc.block_devices next_letters 0 [] [] hblank,
      h20]
  rw [instanceCreate, hrun]

/-- Witness for C5: applying the amended theorem at the single-blank
launch config, where the Configuration error is indeed raised with an
empty trace. -/
theorem C5_witness :
    lc5b.block_devices.any
      (fun d => d.is_volume && d.source == BDSource.none) = true ∧
    instanceCreate env0 none none (some lc5b) =
      (Except.error
        (if blankReachable lc5b.block_devices 20
         then PyError.invalidConfiguration blankVolumeMsg
         else PyError.stopIteration), []) :=
  ⟨by decide, C5_amended env0 none lc5b (by decide)⟩

/-- A device name `sd<c>` is never the root slot. -/
theorem sd_push_ne_sda1 (c : Char) : ("sd".push c) ≠ "/dev/sda1" := by
  intro h
  have h2 := congrArg String.length h
  rw [String.length_push] at h2
  exact absurd h2 (by decide)

/-- Distinct cursor letters give distinct device names. -/
theorem sd_push_inj {c c2 : Char} (h : ("sd".push c) = ("sd".push c2)) :
    c = c2 := by
  have h2 := congrArg String.data h
  rw [String.data_push, String.data_push] at h2
  simpa using h2

/-- Dict assignment at a key not yet present appends. -/
theorem dictInsert_fresh (m : Bdm) (k : String) (v : BDEntry)
    (h : m.any (fun p => p.1 == k) = false) :
    dictInsert m k v = m ++ [(k, v)] := by
  simp [dictInsert, h]

/-- One builder step on a root volume spec whose source resolution
cannot fail (non-blank source, or a truthy zone): the step inserts some
entry at the fixed root slot, consumes no letter, and recurses. -/
theorem processGo_step_root (env : Env) (z : Option String)
    (d : BlockDeviceSpec) (ds : List BlockDeviceSpec) (letters : List Char)
    (nvol : Nat) (bdm : Bdm) (tr : List Ev)
    (hv : d.is_volume = true) (hr : d.is_root = true)
    (hok : d.source ≠ BDSource.none ∨ strTruthy z = true) :
    ∃ e nvol2 tr2,
      processGo env z (d :: ds) letters nvol bdm tr =
        processGo env z ds letters nvol2
          (dictInsert bdm "/dev/sda1" e) tr2 := by
  cases hs : d.source with
  | snapshot sid =>
    refine ⟨⟨some sid, none, none, d.delete_on_terminate,
      if natOptTruthy d.size then d.size else none⟩, nvol, tr, ?_⟩
    simp [processGo, hv, hr, hs, emptyBD]
  | volume vid =>
    refine ⟨⟨none, some vid, none, d.delete_on_terminate,
      if natOptTruthy d.size then d.size else none⟩, nvol, tr, ?_⟩
    simp [processGo, hv, hr, hs, emptyBD]
  | image iid =>
    refine ⟨⟨none, none, none, d.delete_on_terminate,
      if natOptTruthy d.size then d.size else none⟩, nvol, tr, ?_⟩
    simp [processGo, hv, hr, hs, emptyBD]
  | none =>
    have hz : strTruthy z = true := by
      cases hok with
      | inl h => exact absurd hs h
      | inr h => exact h
    cases z with
    | none => simp [strTruthy] at hz
    | some zz =>
      refine ⟨⟨none, some (env.fresh_vol_id nvol), none, d.delete_on_terminate,
        if natOptTruthy d.size then d.size else none⟩, nvol + 1,
        tr ++ [Ev.createVolume d.size zz], ?_⟩
      simp [processGo, hv, hr, hs, hz, emptyBD]

/-- One builder step on a non-root volume spec whose source resolution
cannot fail: the step consumes the next cursor letter, inserts some
entry at `sd<letter>`, and recurses. -/
theorem processGo_step_nonroot (env : Env) (z : Option String)
    (d : BlockDeviceSpec) (ds : List BlockDeviceSpec) (c : Char)
    (rest : List Char) (nvol : Nat) (bdm : Bdm) (tr : List Ev)
    (hv : d.is_volume = true) (hr : d.is_root = false)
    (hok : d.source ≠ BDSource.none ∨ strTruthy z = true) :
    ∃ e nvol2 tr2,
      processGo env z (d :: ds) (c :: rest) nvol bdm tr =
        processGo env z ds rest nvol2
          (dictInsert bdm ("sd".push c) e) tr2 := by
  cases hs : d.source with
  | snapshot sid =>
    refine ⟨⟨some sid, none, none, d.delete_on_terminate,
      if natOptTruthy d.size then d.size else none⟩, nvol, tr, ?_⟩
    simp [processGo, hv, hr, hs, emptyBD]
  | volume vid =>
    refine ⟨⟨none, some vid, none, d.delete_on_terminate,
      if natOptTruthy d.size then d.size else none⟩, nvol, tr, ?_⟩
    simp [processGo, hv, hr, hs, emptyBD]
  | image iid =>
    refine ⟨⟨none, none, none, d.delete_on_terminate,
      if natOptTruthy d.size then d.size else none⟩, nvol, tr, ?_⟩
    simp [processGo, hv, hr, hs, emptyBD]
  | none =>
    have hz : strTruthy z = true := by
      cases hok with
      | inl h => exact absurd hs h
      | inr h => exact h
    cases z with
    | none => simp [strTruthy] at hz
    | some zz =>
      refine ⟨⟨none, some (env.fresh_vol_id nvol), none, d.delete_on_terminate,
        if natOptTruthy d.size then d.size else none⟩, nvol + 1,
        tr ++ [Ev.createVolume d.size zz], ?_⟩
      simp [processGo, hv, hr, hs, hz, emptyBD]

/-- Device-slot characterization of the builder: when no source
resolution can fail (every volume spec has a non-blank source or a
truthy zone is supplied), at most one root spec occurs, and enough
cursor letters remain for the non-root volume specs, the builder
succeeds and appends to the mapping exactly the keys of `bdKeys`:
the fixed root slot for root specs, successive cursor letters for
non-root volume specs, nothing for ephemeral specs. -/
theorem processGo_keys (env : Env) (z : Option String) :
    ∀ (ds : List BlockDeviceSpec) (letters : List Char) (nvol : Nat)
      (bdm : Bdm) (tr : List Ev),
    (∀ d ∈ ds, d.is_volume = true →
        (d.source ≠ BDSource.none ∨ strTruthy z = true)) →
    countRootVol ds ≤ 1 →
    countNonRootVol ds ≤ letters.length →
    letters.Nodup →
    (∀ c ∈ letters, bdm.any (fun p => p.1 == "sd".push c) = false) →
    (0 < countRootVol ds → bdm.any (fun p => p.1 == "/dev/sda1") = false) →
    ∃ m tr2, processGo env z ds letters nvol bdm tr = (Except.ok m, tr2) ∧
      m.map Prod.fst = bdm.map Prod.fst ++ bdKeys ds letters := by
  intro ds
  induction ds with
  | nil =>
    intro letters nvol bdm tr hsrc hroot hcnt hnd h4 h5
    exact ⟨bdm, tr, by simp [processGo], by simp [bdKeys]⟩
  | cons d ds ih =>
    intro letters nvol bdm tr hsrc hroot hcnt hnd h4 h5
    have hsrc2 : ∀ d2 ∈ ds, d2.is_volume = true →
        (d2.source ≠ BDSource.none ∨ strTruthy z = true) := by
      intro d2 hd2 hdv
      exact hsrc d2 (List.mem_cons_of_mem _ hd2) hdv
    by_cases hv : d.is_volume = true
    · by_cases hr : d.is_root = true
      · -- root volume spec
        have hcr : countRootVol (d :: ds) = countRootVol ds + 1 := by
          simp [countRootVol, List.filter_cons, hv, hr]
        have hcn : countNonRootVol (d :: ds) = countNonRootVol ds := by
          simp [countNonRootVol, List.filter_cons, hv, hr]
        have hroot0 : countRootVol ds = 0 := by omega
        have hfresh : bdm.any (fun p => p.1 == "/dev/sda1") = false := by
          apply h5
          omega
        obtain ⟨e, nvol2, tr3, hstep⟩ :=
          processGo_step_root env z d ds letters nvol bdm tr hv hr
            (hsrc d (List.mem_cons_self _ _) hv)
        rw [hstep, dictInsert_fresh bdm "/dev/sda1" e hfresh]
        have h4b : ∀ c ∈ letters,
            (bdm ++ [("/dev/sda1", e)]).any
              (fun p => p.1 == "sd".push c) = false := by
          intro c hc
          rw [List.any_append]
          have hne : (("/dev/sda1" : String) == "sd".push c) = false := by
            rw [beq_eq_false_iff_ne]
            exact fun hcontra => sd_push_ne_sda1 c hcontra.symm
          simp [h4 c hc, hne]
        have h5b : 0 < countRootVol ds →
            (bdm ++ [("/dev/sda1", e)]).any
              (fun p => p.1 == "/dev/sda1") = false := by
          intro hpos
          omega
        obtain ⟨m, tr4, hrun, hkeys⟩ := ih letters nvol2
          (bdm ++ [("/dev/sda1", e)]) tr3 hsrc2 (by omega) (by omega) hnd
          h4b h5b
        refine ⟨m, tr4, hrun, ?_⟩
        rw [hkeys]
        simp [bdKeys, hv, hr, List.append_assoc]
      · -- non-root volume spec
        have hrf : d.is_root = false := by
          simpa using hr
        have hcr : countRootVol (d :: ds) = countRootVol ds := by
          simp [countRootVol, List.filter_cons, hv, hrf]
        have hcn : countNonRootVol (d :: ds) = countNonRootVol ds + 1 := by
          simp [countNonRootVol, List.filter_cons, hv, hrf]
        cases letters with
        | nil =>
          exfalso
          rw [hcn] at hcnt
          simp at hcnt
        | cons c rest =>
          obtain ⟨hcr2, hnd2⟩ := List.nodup_cons.mp hnd
          have hfresh : bdm.any (fun p => p.1 == "sd".push c) = false :=
            h4 c (List.mem_cons_self _ _)
          obtain ⟨e, nvol2, tr3, hstep⟩ :=
            processGo_step_nonroot env z d ds c rest nvol bdm tr hv hrf
              (hsrc d (List.mem_cons_self _ _) hv)
          rw [hstep, dictInsert_fresh bdm ("sd".push c) e hfresh]
          have h4b : ∀ c2 ∈ rest,
              (bdm ++ [("sd".push c, e)]).any
                (fun p => p.1 == "sd".push c2) = false := by
            intro c2 hc2
            rw [List.any_append]
            have hne : (("sd".push c) == "sd".push c2) = false := by
              rw [beq_eq_false_iff_ne]
              intro hcontra
              exact hcr2 (sd_push_inj hcontra ▸ hc2)
            simp [h4 c2 (List.mem_cons_of_mem _ hc2), hne]
          have h5b : 0 < countRootVol ds →
              (bdm ++ [("sd".push c, e)]).any
                (fun p => p.1 == "/dev/sda1") = false := by
            intro hpos
            rw [List.any_append]
            have hne : (("sd".push c) == "/dev/sda1") = false := by
              rw [beq_eq_false_iff_ne]
              exact sd_push_ne_sda1 c
            have h5a := h5 (by omega)
            simp [h5a, hne]
          obtain ⟨m, tr4, hrun, hkeys⟩ := ih rest nvol2
            (bdm ++ [("sd".push c, e)]) tr3 hsrc2 (by omega)
            (by simp at hcnt; omega) hnd2 h4b h5b
          refine ⟨m, tr4, hrun, ?_⟩
          rw [hkeys]
          simp [bdKeys, hv, hrf, List.append_assoc]
    · -- ephemeral spec: state unchanged
      have hvf : d.is_volume = false := by
        simpa using hv
      have hcr : countRootVol (d :: ds) = countRootVol ds := by
        simp [countRootVol, List.filter_cons, hvf]
      have hcn : countNonRootVol (d :: ds) = countNonRootVol ds := by
        simp [countNonRootVol, List.filter_cons, hvf]
      have hstep : processGo env z (d :: ds) letters nvol bdm tr =
          processGo env z ds letters nvol bdm tr := by
        simp [processGo, hvf]
      rw [hstep]
      obtain ⟨m, tr4, hrun, hkeys⟩ := ih letters nvol bdm tr hsrc2
        (by omega) (by omega) hnd h4 (fun hpos => h5 (by omega))
      refine ⟨m, tr4, hrun, ?_⟩
      rw [hkeys]
      simp [bdKeys, hvf]

/-- Claim C9: the block-device builder assigns the fixed root slot
`/dev/sda1` to a root-volume spec regardless of the letter cursor,
successive letters starting at `g` (i.e. `sdg`, then `sdh`, ...) to the
non-root volume specs in spec order, and ephemeral specs never advance
the cursor — stated as: the finished mapping's keys are exactly
`bdKeys` of the spec list over the cursor-letter list `next_letters`
(which starts at `g`), whenever the launch config has at most one root
spec, at most 20 non-root volume specs, and no blank-volume spec
without a zone. -/
theorem C9_device_slots (env : Env) (z : Option String) (lc : LaunchConfig)
    (hsrc : ∀ d ∈ lc.block_devices, d.is_volume = true →
        (d.source ≠ BDSource.none ∨ strTruthy z = true))
    (hroot : countRootVol lc.block_devices ≤ 1)
    (hcnt : countNonRootVol lc.block_devices ≤ 20) :
    ∃ m tr, processBlockDeviceMappings env lc z = (Except.ok m, tr) ∧
      m.map Prod.fst = bdKeys lc.block_devices next_letters := by
  have h20 : next_letters.length = 20 := by decide
  have hnd : next_letters.Nodup := by decide
  obtain ⟨m, tr2, hrun, hkeys⟩ :=
    processGo_keys env z lc.block_devices next_letters 0 [] [] hsrc hroot
      (by omega) hnd (by intro c hc; rfl) (by intro hpos; rfl)
  exact ⟨m, tr2, hrun, by simpa using hkeys⟩

/-- Witness for C9: a launch config with specs in order (root volume,
non-root volume, ephemeral, non-root volume) yields exactly the device
slots root-slot, `sdg`, `sdh` in spec order — the root spec gets the
fixed slot, the first letter handed out is `g`, and the interleaved
ephemeral spec consumes no letter. -/
theorem C9_witness :
    (∃ m tr, processBlockDeviceMappings env0 lc9 none = (Except.ok m, tr) ∧
      m.map Prod.fst = bdKeys lc9.block_devices next_letters) ∧
    bdKeys lc9.block_devices next_letters = ["/dev/sda1", "sdg", "sdh"] ∧
    countRootVol lc9.block_devices = 1 ∧
    countNonRootVol lc9.block_devices = 2 :=
  ⟨C9_device_slots env0 none lc9 (by decide) (by decide) (by decide),
   by decide, by decide, by decide⟩

/-- Witness for C1: applying the amended theorem at the concrete input
of the counterexample (blank volume, zone `z1`, subnet in zone `z2`). -/
theorem C1_witness :
    (instanceCreate env1 (some "z1") none (some lc1)).1 =
      Except.error (PyError.valueError zoneMismatchMsg) ∧
    Ev.runInstances ∉ (instanceCreate env1 (some "z1") none (some lc1)).2 :=
  ⟨by decide,
   C1_amended env1 (some "z1") none (some lc1)
     (PyError.valueError zoneMismatchMsg) (by decide)⟩

end CloudBridge
